import Mathlib

/-!
# Verification of the leadership-value-cards server core

A shallow embedding of the authentication and route-handling core of the
leadership-value-cards web application: the password hasher and account
service from `jwt-auth` (hashPassword, comparePasswords, generateToken,
verifyToken, authenticateToken, loginUser, registerUser) and the HTTP route
handlers from `routes` (health check, login/register, leadership-value CRUD,
CSV export, PDF-email relay).

JavaScript strings are modelled as Lean `String` / `List Char`; `undefined`
and `null` as `Option`; thrown exceptions as `Except`; awaited asynchronous
calls as plain function calls.  The external collaborators (Node `crypto`,
the `jsonwebtoken` library, the storage backend, the email provider) are
modelled at the granularity the handlers observe.
-/

/-! ## JavaScript string primitives -/

/-- JavaScript `String.prototype.split(sep)` with a single-character
separator, on `List Char`.  `"".split('.')` is `[""]`, so the result is
never empty. -/
def jsSplitChar (sep : Char) : List Char → List (List Char)
  | [] => [[]]
  | c :: rest =>
    if c = sep then
      [] :: jsSplitChar sep rest
    else
      match jsSplitChar sep rest with
      | [] => [[c]]
      | w :: ws => (c :: w) :: ws

/-- Lower-case hexadecimal digit for a value below 16 (as produced by
`Buffer.toString('hex')`). -/
def hexDigitChar (n : Nat) : Char :=
  ("0123456789abcdef".toList).getD n '0'

/-- Numeric value of a hexadecimal digit, `none` on a non-hex character
(`Buffer.from(s, 'hex')` accepts both cases). -/
def hexCharVal (c : Char) : Option Nat :=
  if '0' ≤ c ∧ c ≤ '9' then some (c.toNat - '0'.toNat)
  else if 'a' ≤ c ∧ c ≤ 'f' then some (c.toNat - 'a'.toNat + 10)
  else if 'A' ≤ c ∧ c ≤ 'F' then some (c.toNat - 'A'.toNat + 10)
  else none

/-- Node `Buffer.prototype.toString('hex')`: each byte becomes two lower-case hex
digits. -/
def hexEncodeBytes (bs : List Nat) : List Char :=
  bs.flatMap (fun b => [hexDigitChar (b / 16 % 16), hexDigitChar (b % 16)])

/-- Node `Buffer.from(s, 'hex')`: decode pairs of hex digits into bytes, stopping
(without an error) at the first invalid pair or dangling character. -/
def hexDecodeChars : List Char → List Nat
  | c1 :: c2 :: rest =>
    match hexCharVal c1, hexCharVal c2 with
    | some h, some l => (16 * h + l) :: hexDecodeChars rest
    | _, _ => []
  | _ => []

/-- JavaScript falsiness of a `string | undefined` value: `undefined` and
`""` are falsy. -/
def jsFalsyStr : Option String → Bool
  | none => true
  | some s => s == ""

/-- Decimal value of the leading digit run. -/
def decDigitsVal (ds : List Char) : Nat :=
  ds.foldl (fun a c => a * 10 + (c.toNat - '0'.toNat)) 0

/-- Hexadecimal value of the leading hex-digit run. -/
def hexDigitsVal (ds : List Char) : Nat :=
  ds.foldl (fun a c => a * 16 + ((hexCharVal c).getD 0)) 0

/-- JavaScript `parseInt(s)` with no radix argument: skip leading
whitespace, read an optional sign, honour a `0x`/`0X` prefix as hexadecimal,
then take the maximal digit run; `none` models `NaN` (no digits at all). -/
def jsParseInt (s : String) : Option Int :=
  let l := s.toList.dropWhile Char.isWhitespace
  let signAndRest : Int × List Char :=
    match l with
    | '-' :: rest => (-1, rest)
    | '+' :: rest => (1, rest)
    | _ => (1, l)
  let sign := signAndRest.1
  match signAndRest.2 with
  | '0' :: 'x' :: rest =>
    let ds := rest.takeWhile (fun c => (hexCharVal c).isSome)
    if ds.isEmpty then none else some (sign * (hexDigitsVal ds : Int))
  | '0' :: 'X' :: rest =>
    let ds := rest.takeWhile (fun c => (hexCharVal c).isSome)
    if ds.isEmpty then none else some (sign * (hexDigitsVal ds : Int))
  | l2 =>
    let ds := l2.takeWhile Char.isDigit
    if ds.isEmpty then none else some (sign * (decDigitsVal ds : Int))


/-! ## JWT model (`jsonwebtoken` as observed by this code)

A token string is either a well-formed compact JWS produced by `jwt.sign` —
carrying its payload, issued-at, expiry and the secret it was signed with —
or garbage (any other string).  `jwt.verify(token, secret)` throws on a
malformed token, a signature made with a different secret, or an expiry not
in the future; `verifyToken` wraps it in `try/catch` and returns `null`. -/

/-- The claims this application puts in a token: `{ userId, username }`. -/
structure JwtPayload where
  userId : Int
  username : String
  deriving DecidableEq, Repr

/-- A string in token position: a compact signed token or any other
string. -/
inductive JwtString where
  | signed (payload : JwtPayload) (iat : Nat) (exp : Nat) (secret : String)
  | garbage (s : String)
  deriving DecidableEq, Repr

/-- Failure modes of `jwt.verify` this code can observe. -/
inductive JwtError where
  | malformed
  | badSignature
  | expired
  deriving DecidableEq, Repr

/-- The constant `JWT_SECRET = process.env.JWT_SECRET || 'your-super-secret-jwt-key'`:
the process-wide secret, at its insecure default. -/
def jwtSecretDefault : String := "your-super-secret-jwt-key"

/-- The lifetime `JWT_EXPIRES_IN = '7d'` in seconds. -/
def jwtExpiresInSeconds : Nat := 7 * 24 * 60 * 60

/-- Model of `jwt.sign(payload, secret, ...)` with a 7-day expiry, at clock time `now`
(seconds). -/
def jwtSign (payload : JwtPayload) (secret : String) (now : Nat) : JwtString :=
  .signed payload now (now + jwtExpiresInSeconds) secret

/-- Model of `jwt.verify(token, secret)` at clock time `now`: error on malformed
input, a secret mismatch, or `now ≥ exp`. -/
def jwtVerify (tok : JwtString) (secret : String) (now : Nat) :
    Except JwtError JwtPayload :=
  match tok with
  | .garbage _ => .error .malformed
  | .signed payload _ e s =>
    if s ≠ secret then .error .badSignature
    else if e ≤ now then .error .expired
    else .ok payload

/-! ## Data model -/

/-- A stored user: numeric id, unique username, and the stored credential
string (derived key and salt, hex-encoded, joined by `'.'`). -/
structure User where
  id : Int
  username : String
  password : List Char
  deriving DecidableEq, Repr

/-- Function `generateToken(user)`: sign `{ userId: user.id, username }` with the
process secret, expiring 7 days out. -/
def generateToken (user : User) (now : Nat) : JwtString :=
  jwtSign ⟨user.id, user.username⟩ jwtSecretDefault now

/-- Function `verifyToken(token)`: `jwt.verify` under `try/catch`, `null` on any
failure. -/
def verifyToken (tok : JwtString) (now : Nat) : Option JwtPayload :=
  match jwtVerify tok jwtSecretDefault now with
  | .ok payload => some payload
  | .error _ => none

/-- The username a signed token carries in its payload (`none` for a
non-token string). -/
def JwtString.embeddedUsername : JwtString → Option String
  | .signed payload _ _ _ => some payload.username
  | .garbage _ => none

/-! ## Password hasher (`scrypt` / `timingSafeEqual` from Node `crypto`)

`scrypt(password, salt, 64)` is an external key-derivation function; the
code only relies on it being a deterministic function of password and salt
producing a 64-byte buffer, and on it throwing a `TypeError` when the salt
argument is `undefined`.  It is kept as a parameter `kdf` (fallible, so an
infrastructure fault of the hasher is also representable); theorems carry
the 64-byte/byte-range facts as hypotheses where they are needed. -/

/-- Faults observable from the crypto layer. -/
inductive CryptoError where
  | saltUndefined
  | bufferLengthMismatch
  | kdfFault (message : String)
  deriving DecidableEq, Repr

/-- The type of the `scrypt(·, ·, 64)` collaborator: password and salt to a
byte buffer, or a thrown fault. -/
def Kdf : Type := String → List Char → Except CryptoError (List Nat)

/-- Node `timingSafeEqual(a, b)`: throws when the buffers have different lengths,
otherwise compares contents (the constant-time aspect is not modelled). -/
def timingSafeEqual (a b : List Nat) : Except CryptoError Bool :=
  if a.length = b.length then .ok (a == b) else .error .bufferLengthMismatch

/-- Function `hashPassword(password)` with the 16 random bytes already drawn and
hex-encoded as `salt`: derive a 64-byte key and store
`hex(key) ++ "." ++ salt`. -/
def hashPassword (kdf : Kdf) (password : String) (salt : List Char) :
    Except CryptoError (List Char) :=
  match kdf password salt with
  | .error e => .error e
  | .ok buf => .ok (hexEncodeBytes buf ++ '.' :: salt)

/-- Function `comparePasswords(supplied, stored)`: split the stored credential on
`'.'`; destructuring takes elements 0 and 1, so a missing separator leaves
the salt `undefined` and `scrypt` throws; then hex-decode the stored key,
re-derive from the supplied password, and `timingSafeEqual` the two. -/
def comparePasswords (kdf : Kdf) (supplied : String) (stored : List Char) :
    Except CryptoError Bool :=
  let parts := jsSplitChar '.' stored
  let hashed := parts.headD []
  match parts.get? 1 with
  | none => .error .saltUndefined
  | some salt =>
    let hashedBuf := hexDecodeChars hashed
    match kdf supplied salt with
    | .error e => .error e
    | .ok suppliedBuf => timingSafeEqual hashedBuf suppliedBuf

/-! ## Storage collaborator

`./storage` is imported by the auth module and the routes but its source is
not part of this snapshot; the definitions below are modelled from the
spec.  Each operation the handlers call is a CRUD primitive over
independently keyed records; a per-operation fault field (`none` = the call
succeeds, `some m` = the collaborator throws an error with message `m`)
represents an infrastructure failure of that call. -/

/-- An admin-managed catalog entry. -/
structure LeadershipValue where
  id : Int
  value : String
  description : String
  deriving DecidableEq, Repr

/-- A stored assessment submission. -/
structure Submission where
  name : String
  email : String
  companyCode : Option String
  coreValues : List String
  createdAt : String
  deriving DecidableEq, Repr

/-- Modelled from the spec: the storage collaborator (`./storage`, not in
this snapshot) as an in-memory store of independently keyed `User`,
`LeadershipValue` and `Submission` records, plus per-operation fault
switches so that a handler can be examined under a throwing storage call. -/
structure MemStorage where
  users : List User
  nextUserId : Int
  leadershipValues : List LeadershipValue
  submissions : List Submission
  failGetUser : Option String := none
  failGetUserByUsername : Option String := none
  failCreateUser : Option String := none
  failGetLeadershipValueById : Option String := none
  failDeleteLeadershipValue : Option String := none
  failUpdateLeadershipValue : Option String := none
  failGetAllLeadershipValues : Option String := none
  failGetAllSubmissions : Option String := none
  failGetSubmissionsByCompanyCode : Option String := none

/-- Modelled from the spec: `storage.getUser(id)` — look a user up by
numeric id. -/
def MemStorage.getUser (s : MemStorage) (id : Int) :
    Except String (Option User) :=
  match s.failGetUser with
  | some m => .error m
  | none => .ok (s.users.find? (fun u => u.id == id))

/-- Modelled from the spec: `storage.getUserByUsername(username)` — look a
user up by its unique username. -/
def MemStorage.getUserByUsername (s : MemStorage) (username : String) :
    Except String (Option User) :=
  match s.failGetUserByUsername with
  | some m => .error m
  | none => .ok (s.users.find? (fun u => u.username == username))

/-- Modelled from the spec: `storage.createUser({username, password})` —
persist a new user under a fresh id and return it (with the updated
store). -/
def MemStorage.createUser (s : MemStorage) (username : String)
    (password : List Char) : Except String (User × MemStorage) :=
  match s.failCreateUser with
  | some m => .error m
  | none =>
    let user : User := ⟨s.nextUserId, username, password⟩
    .ok (user, { s with users := s.users ++ [user], nextUserId := s.nextUserId + 1 })

/-- Modelled from the spec: `storage.getLeadershipValueById(id)`. -/
def MemStorage.getLeadershipValueById (s : MemStorage) (id : Int) :
    Except String (Option LeadershipValue) :=
  match s.failGetLeadershipValueById with
  | some m => .error m
  | none => .ok (s.leadershipValues.find? (fun v => v.id == id))

/-- Modelled from the spec: `storage.deleteLeadershipValue(id)`. -/
def MemStorage.deleteLeadershipValue (s : MemStorage) (id : Int) :
    Except String MemStorage :=
  match s.failDeleteLeadershipValue with
  | some m => .error m
  | none => .ok { s with leadershipValues := s.leadershipValues.filter (fun v => v.id != id) }

/-- Modelled from the spec: `storage.getAllLeadershipValues()` (also the
health check's database probe). -/
def MemStorage.getAllLeadershipValues (s : MemStorage) :
    Except String (List LeadershipValue) :=
  match s.failGetAllLeadershipValues with
  | some m => .error m
  | none => .ok s.leadershipValues

/-- Modelled from the spec: `storage.getAllSubmissions()`. -/
def MemStorage.getAllSubmissions (s : MemStorage) :
    Except String (List Submission) :=
  match s.failGetAllSubmissions with
  | some m => .error m
  | none => .ok s.submissions

/-- Modelled from the spec: `storage.getSubmissionsByCompanyCode(code)` —
exact-match filter on the optional company code. -/
def MemStorage.getSubmissionsByCompanyCode (s : MemStorage) (code : String) :
    Except String (List Submission) :=
  match s.failGetSubmissionsByCompanyCode with
  | some m => .error m
  | none => .ok (s.submissions.filter (fun sub => sub.companyCode == some code))

/-! ## Account service (`loginUser`, `registerUser`) -/

/-- Function `loginUser(username, password)`: fetch by username; `null` when the user
is absent or the password comparison is not `true`; otherwise issue a
token.  The surrounding `try/catch` turns any thrown storage or crypto
fault into the same `null`. -/
def loginUser (kdf : Kdf) (s : MemStorage) (username password : String)
    (now : Nat) : Option (User × JwtString) :=
  match s.getUserByUsername username with
  | .error _ => none
  | .ok none => none
  | .ok (some user) =>
    match comparePasswords kdf password user.password with
    | .error _ => none
    | .ok false => none
    | .ok true => some (user, generateToken user now)

/-- Function `registerUser(username, password)` with the salt's random bytes drawn as
`salt`: `null` when the username already exists; otherwise hash, persist and
issue a token, returning the updated store as well.  The surrounding
`try/catch` turns any thrown storage or crypto fault into the same
`null`. -/
def registerUser (kdf : Kdf) (s : MemStorage) (username password : String)
    (salt : List Char) (now : Nat) : Option (User × JwtString × MemStorage) :=
  match s.getUserByUsername username with
  | .error _ => none
  | .ok (some _) => none
  | .ok none =>
    match hashPassword kdf password salt with
    | .error _ => none
    | .ok hashedPassword =>
      match s.createUser username hashedPassword with
      | .error _ => none
      | .ok (user, s2) => some (user, generateToken user now, s2)

/-! ## Auth middleware (`authenticateToken`) -/

/-- What the middleware does with a request: answer immediately with a
status and message, or attach the resolved user and call `next()` so the
route handler runs. -/
inductive MwOutcome where
  | respond (status : Nat) (message : String)
  | next (user : User)
  deriving DecidableEq, Repr

/-- The Authorization header as the middleware consumes it: absent, or the
list of its space-separated words, each word in token position (so each is
a `JwtString`; the empty word is `garbage ""`).
`authHeader && authHeader.split(' ')[1]` picks word 1 and is falsy when the
header is absent, the word is missing, or the word is empty. -/
def extractBearerToken (authHeader : Option (List JwtString)) : Option JwtString :=
  match authHeader with
  | none => none
  | some words =>
    match words.get? 1 with
    | none => none
    | some t => if t = .garbage "" then none else some t

/-- Middleware `authenticateToken(req, res, next)`: 401 without a token, 403 on a
token `verifyToken` rejects, 403 when the embedded user no longer exists,
500 when the user lookup itself throws, otherwise attach the user and
continue. -/
def authenticateToken (s : MemStorage) (authHeader : Option (List JwtString))
    (now : Nat) : MwOutcome :=
  match extractBearerToken authHeader with
  | none => .respond 401 "Access token required"
  | some tok =>
    match verifyToken tok now with
    | none => .respond 403 "Invalid or expired token"
    | some decoded =>
      match s.getUser decoded.userId with
      | .error _ => .respond 500 "Authentication error"
      | .ok none => .respond 403 "User not found"
      | .ok (some user) => .next user

/-! ## Route handlers (`registerRoutes`) -/

/-- A JSON response as the leadership-value and auth handlers produce it:
status, optional message, and an optional payload. -/
structure JsonResp where
  status : Nat
  message : Option String := none
  lvData : Option LeadershipValue := none
  authData : Option (User × JwtString) := none
  deriving DecidableEq, Repr

/-- Route `POST /api/login`: 400 when either field is missing or empty, 401 when
`loginUser` returns `null`, otherwise 200 with `{user, token}`. -/
def loginRoute (kdf : Kdf) (s : MemStorage) (username password : Option String)
    (now : Nat) : JsonResp :=
  if jsFalsyStr username || jsFalsyStr password then
    { status := 400, message := some "Username and password are required" }
  else
    match loginUser kdf s (username.getD "") (password.getD "") now with
    | none => { status := 401, message := some "Invalid credentials" }
    | some r => { status := 200, authData := some r }

/-- Route `POST /api/register`: 400 when either field is missing or empty, 400
`"Username already exists"` when `registerUser` returns `null`, otherwise
201 with `{user, token}`. -/
def registerRoute (kdf : Kdf) (s : MemStorage) (username password : Option String)
    (salt : List Char) (now : Nat) : JsonResp :=
  if jsFalsyStr username || jsFalsyStr password then
    { status := 400, message := some "Username and password are required" }
  else
    match registerUser kdf s (username.getD "") (password.getD "") salt now with
    | none => { status := 400, message := some "Username already exists" }
    | some (user, tok, _) => { status := 201, authData := some (user, tok) }

/-- Route `GET /api/leadership-values/:id` (after the auth middleware): parse the
id with `parseInt`, 400 on `NaN`, 404 when no record exists, 500 when the
lookup throws, otherwise 200 with the record. -/
def getLvByIdRoute (s : MemStorage) (idParam : String) : JsonResp :=
  match jsParseInt idParam with
  | none => { status := 400, message := some "Invalid ID format" }
  | some id =>
    match s.getLeadershipValueById id with
    | .error _ =>
      { status := 500, message := some "An error occurred while fetching the leadership value" }
    | .ok none => { status := 404, message := some "Leadership value not found" }
    | .ok (some v) => { status := 200, lvData := some v }

/-- The parsed body of a leadership-value create/update request:
`insertLeadershipValueSchema.parse` either yields the fields or throws a
`ZodError`. -/
def LvBody : Type := Except String (String × String)

/-- Route `PUT /api/leadership-values/:id`: parse the id (400 on `NaN`), check
existence (404), then validate the body (400 on a `ZodError`) and update
(200); a storage throw is a 500. -/
def updateLvRoute (s : MemStorage) (idParam : String) (body : LvBody) : JsonResp :=
  match jsParseInt idParam with
  | none => { status := 400, message := some "Invalid ID format" }
  | some id =>
    match s.getLeadershipValueById id with
    | .error _ =>
      { status := 500, message := some "An error occurred while updating the leadership value" }
    | .ok none => { status := 404, message := some "Leadership value not found" }
    | .ok (some _) =>
      match body with
      | .error _ => { status := 400, message := some "Invalid leadership value data" }
      | .ok (v, d) =>
        match s.failUpdateLeadershipValue with
        | some _ =>
          { status := 500, message := some "An error occurred while updating the leadership value" }
        | none =>
          { status := 200, message := some "Leadership value updated successfully",
            lvData := some ⟨id, v, d⟩ }

/-- Route `DELETE /api/leadership-values/:id`: parse the id (400 on `NaN`), check
existence (404), delete (200); a storage throw is a 500. -/
def deleteLvRoute (s : MemStorage) (idParam : String) : JsonResp :=
  match jsParseInt idParam with
  | none => { status := 400, message := some "Invalid ID format" }
  | some id =>
    match s.getLeadershipValueById id with
    | .error _ =>
      { status := 500, message := some "An error occurred while deleting the leadership value" }
    | .ok none => { status := 404, message := some "Leadership value not found" }
    | .ok (some _) =>
      match s.deleteLeadershipValue id with
      | .error _ =>
        { status := 500, message := some "An error occurred while deleting the leadership value" }
      | .ok _ => { status := 200, message := some "Leadership value deleted successfully" }

/-- The health-check response body: status word, database word, and the
`error` field that is present only on the failure branch (timestamp and
uptime are environmental and not modelled). -/
structure HealthResp where
  status : Nat
  statusWord : String
  database : String
  errorDetail : Option String := none
  deriving DecidableEq, Repr

/-- Route `GET /api/health`: probe the database with `getAllLeadershipValues()`;
200 `"connected"` on success, 503 `"disconnected"` with
`error: error.message` on a throw. -/
def healthRoute (s : MemStorage) : HealthResp :=
  match s.getAllLeadershipValues with
  | .ok _ => { status := 200, statusWord := "healthy", database := "connected" }
  | .error m =>
    { status := 503, statusWord := "unhealthy", database := "disconnected",
      errorDetail := some m }

/-- The outcome of the email collaborator's `sendEmail` call:
`{ success, error? }`. -/
structure EmailResult where
  success : Bool
  errorDetail : Option String := none
  deriving DecidableEq, Repr

/-- The `userInfo` part of a PDF-email request. -/
structure PdfUserInfo where
  name : Option String
  email : Option String
  deriving DecidableEq, Repr

/-- Body of a `POST /api/send-pdf-email` request. -/
structure PdfEmailReq where
  pdfBase64 : Option String
  userInfo : Option PdfUserInfo
  coreValues : Option (List (String × String))
  deriving DecidableEq, Repr

/-- Response of the PDF-email handler: status, `success` flag, and the
`error`/`details` fields of the failure branches. -/
structure PdfEmailResp where
  status : Nat
  success : Option Bool := none
  errorWord : Option String := none
  details : Option String := none
  deriving DecidableEq, Repr

/-- Route `POST /api/send-pdf-email`: 400 when any required field is falsy;
then `Buffer.from(pdfBase64.split(',')[1], 'base64')` — when `pdfBase64`
holds no comma, element 1 of the split is `undefined` and `Buffer.from`
throws, so the handler's catch answers a generic 500
`{error: 'Failed to send email'}` without calling the email collaborator;
otherwise delegate to the collaborator (whose outcome is `emailResult`):
200 on success, 500 with `error: 'Failed to send email',
details: result.error` on failure. -/
def sendPdfEmailRoute (req : PdfEmailReq) (emailResult : EmailResult) : PdfEmailResp :=
  if jsFalsyStr req.pdfBase64 then { status := 400, errorWord := some "Missing required data" }
  else
    match req.userInfo with
    | none => { status := 400, errorWord := some "Missing required data" }
    | some info =>
      if jsFalsyStr info.email || jsFalsyStr info.name then
        { status := 400, errorWord := some "Missing required data" }
      else
        match req.coreValues with
        | none => { status := 400, errorWord := some "Missing required data" }
        | some _ =>
          match (jsSplitChar ',' (req.pdfBase64.getD "").toList).get? 1 with
          | none => { status := 500, errorWord := some "Failed to send email" }
          | some _ =>
            if emailResult.success then { status := 200, success := some true }
            else
              { status := 500, errorWord := some "Failed to send email",
                details := emailResult.errorDetail }

/-- The CSV-export response: status, the two headers set on the success
path, and the body text. -/
structure CsvResp where
  status : Nat
  contentType : Option String := none
  contentDisposition : Option String := none
  body : Option String := none
  message : Option String := none
  deriving DecidableEq, Repr

/-- One CSV row of the export: every field wrapped in double quotes, the
core values joined with `", "`, the date formatted by the locale formatter
`fmtDate`. -/
def csvRow (fmtDate : String → String) (sub : Submission) : String :=
  String.intercalate ","
    ["\"" ++ sub.name ++ "\"",
     "\"" ++ sub.email ++ "\"",
     "\"" ++ (sub.companyCode.getD "") ++ "\"",
     "\"" ++ String.intercalate ", " sub.coreValues ++ "\"",
     "\"" ++ fmtDate sub.createdAt ++ "\""]

/-- The export's header line (with its trailing newline). -/
def csvHeader : String := "Name,Email,Company Code,Core Values,Date Submitted\n"

/-- Route `GET /api/submissions/export` (after the auth middleware): when the
`companyCode` query parameter is truthy and not `'all'`, fetch the filtered
submissions, else all of them; build the CSV; the attachment filename gets
the `_<code>` suffix whenever the parameter is truthy.  `fmtDate` stands
for `toLocaleDateString('en-US', …)`, a locale/environment collaborator. -/
def exportRoute (s : MemStorage) (companyCode : Option String)
    (fmtDate : String → String) : CsvResp :=
  let subsE :=
    if !jsFalsyStr companyCode && companyCode != some "all" then
      s.getSubmissionsByCompanyCode (companyCode.getD "")
    else
      s.getAllSubmissions
  match subsE with
  | .error _ =>
    { status := 500, message := some "An error occurred while exporting submissions" }
  | .ok subs =>
    let csvContent := csvHeader ++ String.intercalate "\n" (subs.map (csvRow fmtDate))
    { status := 200,
      contentType := some "text/csv",
      contentDisposition := some
        ("attachment; filename=\"submissions" ++
         (if !jsFalsyStr companyCode then "_" ++ companyCode.getD "" else "") ++ ".csv\""),
      body := some csvContent }

/-! ## Concrete fixtures (used to exercise the definitions at specific
inputs) -/

/-- A key-derivation collaborator that always succeeds with a fixed tiny
buffer. -/
def kdfConst : Kdf := fun _ _ => .ok [0, 1]

/-- A key-derivation collaborator whose derived key depends only on the
password's length, so two passwords of different lengths derive different
keys. -/
def kdfByLen : Kdf := fun p _ => .ok [p.length % 256]

/-- A store with no records and no faults. -/
def emptyStore : MemStorage :=
  { users := [], nextUserId := 1, leadershipValues := [], submissions := [] }

/-- The credential `hashPassword` would store for the two-character password
`"pw"` under `kdfByLen` with salt `"ab"`. -/
def adminPw : List Char := hexEncodeBytes [2] ++ '.' :: ['a', 'b']

/-- A stored admin user with that credential. -/
def adminUser : User := ⟨1, "admin", adminPw⟩

/-- A store holding only `adminUser`. -/
def adminStore : MemStorage := { emptyStore with users := [adminUser], nextUserId := 2 }

/-- A user whose stored credential lacks the `'.'` separator. -/
def malformedUser : User := ⟨1, "admin", String.toList "nodotstring"⟩

/-- A store holding only `malformedUser`. -/
def malformedStore : MemStorage := { emptyStore with users := [malformedUser], nextUserId := 2 }

/-- A store with one leadership value under id 12. -/
def lvStore : MemStorage :=
  { emptyStore with leadershipValues := [⟨12, "Integrity", "Being honest"⟩] }

/-- A submission tagged with company code `"X"`. -/
def subX : Submission :=
  ⟨"Alice", "alice@example.com", some "X", ["Integrity", "Courage"], "2024-01-01"⟩

/-- A submission with no company code. -/
def subNoCode : Submission :=
  ⟨"Bob", "bob@example.com", none, ["Honesty"], "2024-01-02"⟩

/-- A store with the two submissions above. -/
def subStore : MemStorage := { emptyStore with submissions := [subX, subNoCode] }

/-- A store whose user-by-username lookup throws. -/
def faultLoginStore : MemStorage :=
  { emptyStore with failGetUserByUsername := some "db down" }

/-- A store whose database probe (`getAllLeadershipValues`) throws. -/
def healthFaultStore : MemStorage :=
  { emptyStore with failGetAllLeadershipValues := some "connection refused" }

/-- A PDF-email request with every required field present. -/
def pdfReqOk : PdfEmailReq :=
  { pdfBase64 := some "data:application/pdf;base64,AAAA",
    userInfo := some { name := some "Alice Smith", email := some "alice@example.com" },
    coreValues := some [("Integrity", "Being honest")] }

/-! ### Facts about the string primitives -/

theorem jsSplitChar_ne_nil (sep : Char) (l : List Char) : jsSplitChar sep l ≠ [] := by
  cases l with
  | nil => simp [jsSplitChar]
  | cons c rest =>
    simp only [jsSplitChar]
    split
    · simp
    · split <;> simp

theorem jsSplitChar_of_not_mem (sep : Char) (l : List Char) (h : sep ∉ l) :
    jsSplitChar sep l = [l] := by
  induction l with
  | nil => rfl
  | cons c rest ih =>
    simp only [List.mem_cons, not_or] at h
    have hcs : ¬ c = sep := fun hc => h.1 hc.symm
    simp only [jsSplitChar, if_neg hcs, ih h.2]

theorem jsSplitChar_append (sep : Char) (h t : List Char) (hh : sep ∉ h) :
    jsSplitChar sep (h ++ sep :: t) = h :: jsSplitChar sep t := by
  induction h with
  | nil => simp [jsSplitChar]
  | cons c rest ih =>
    simp only [List.mem_cons, not_or] at hh
    have hcs : ¬ c = sep := fun hc => hh.1 hc.symm
    have ih2 := ih hh.2
    simp only [List.cons_append, jsSplitChar, if_neg hcs, List.append_eq, ih2]

theorem jsSplitChar_get_one_of_mem (sep : Char) (l : List Char) (h : sep ∈ l) :
    ∃ w, (jsSplitChar sep l).get? 1 = some w := by
  induction l with
  | nil => exact absurd h (List.not_mem_nil sep)
  | cons c rest ih =>
    by_cases hc : c = sep
    · subst hc
      simp only [jsSplitChar, if_pos rfl]
      cases hsp : jsSplitChar c rest with
      | nil => exact absurd hsp (jsSplitChar_ne_nil c rest)
      | cons w ws => exact ⟨w, rfl⟩
    · have hmem : sep ∈ rest := by
        rcases List.mem_cons.mp h with h1 | h1
        · exact absurd h1.symm hc
        · exact h1
      obtain ⟨w, hw⟩ := ih hmem
      simp only [jsSplitChar, if_neg hc]
      cases hsp : jsSplitChar sep rest with
      | nil => exact absurd hsp (jsSplitChar_ne_nil sep rest)
      | cons w0 ws =>
        rw [hsp] at hw
        exact ⟨w, hw⟩

theorem hexDigitChar_mem (n : Nat) :
    hexDigitChar n ∈ "0123456789abcdef".toList := by
  unfold hexDigitChar
  rcases Nat.lt_or_ge n 16 with h | h
  · interval_cases n <;> decide
  · have hlen : ("0123456789abcdef".toList).length = 16 := rfl
    rw [List.getD_eq_default _ _ (by rw [hlen]; exact h)]
    decide

theorem hexDigitChar_ne_dot (n : Nat) : hexDigitChar n ≠ '.' := by
  intro heq
  have hmem := hexDigitChar_mem n
  rw [heq] at hmem
  exact absurd hmem (by decide)

theorem not_dot_mem_hexEncodeBytes (bs : List Nat) : '.' ∉ hexEncodeBytes bs := by
  intro hmem
  simp only [hexEncodeBytes, List.mem_flatMap] at hmem
  obtain ⟨b, _, hb⟩ := hmem
  simp only [List.mem_cons, List.mem_singleton, List.not_mem_nil, or_false] at hb
  rcases hb with hb | hb
  · exact hexDigitChar_ne_dot _ hb.symm
  · exact hexDigitChar_ne_dot _ hb.symm

theorem hexCharVal_hexDigitChar (n : Nat) (h : n < 16) :
    hexCharVal (hexDigitChar n) = some n := by
  interval_cases n <;> decide

theorem hexDecodeChars_hexEncodeBytes (bs : List Nat) (h : ∀ b ∈ bs, b < 256) :
    hexDecodeChars (hexEncodeBytes bs) = bs := by
  induction bs with
  | nil => rfl
  | cons b rest ih =>
    have hb : b < 256 := h b (List.mem_cons_self b rest)
    have hhi : b / 16 % 16 = b / 16 := Nat.mod_eq_of_lt (by omega)
    have henc : hexEncodeBytes (b :: rest) =
        hexDigitChar (b / 16 % 16) :: hexDigitChar (b % 16) :: hexEncodeBytes rest := by
      simp [hexEncodeBytes]
    rw [henc, hexDecodeChars, hexCharVal_hexDigitChar _ (by rw [hhi]; omega),
      hexCharVal_hexDigitChar _ (Nat.mod_lt _ (by omega))]
    rw [hhi]
    show (16 * (b / 16) + b % 16) :: hexDecodeChars (hexEncodeBytes rest) = b :: rest
    rw [show 16 * (b / 16) + b % 16 = b from by omega]
    exact congrArg (b :: ·) (ih (fun x hx => h x (List.mem_cons_of_mem _ hx)))

/-! ### Facts about the password hasher -/
theorem comparePasswords_no_separator (kdf : Kdf) (supplied : String)
    (stored : List Char) (h : '.' ∉ stored) :
    comparePasswords kdf supplied stored = .error .saltUndefined := by
  unfold comparePasswords
  rw [jsSplitChar_of_not_mem _ _ h]
  rfl

theorem timingSafeEqual_eq_ok_true (a b : List Nat) :
    timingSafeEqual a b = .ok true ↔ a = b := by
  unfold timingSafeEqual
  constructor
  · intro h
    split at h
    · have hbeq : (a == b) = true := by injection h
      exact beq_iff_eq.mp hbeq
    · exact Except.noConfusion h
  · intro h
    subst h
    simp

theorem comparePasswords_split (kdf : Kdf) (supplied : String)
    (hashed salt : List Char) (hh : '.' ∉ hashed) (hs : '.' ∉ salt) :
    comparePasswords kdf supplied (hashed ++ '.' :: salt) =
      match kdf supplied salt with
      | .error e => .error e
      | .ok suppliedBuf => timingSafeEqual (hexDecodeChars hashed) suppliedBuf := by
  unfold comparePasswords
  rw [jsSplitChar_append _ _ _ hh, jsSplitChar_of_not_mem _ _ hs]
  rfl

theorem comparePasswords_roundtrip (kdf : Kdf) (password : String)
    (salt : List Char) (buf : List Nat) (hkdf : kdf password salt = .ok buf)
    (hbytes : ∀ b ∈ buf, b < 256) (hsalt : '.' ∉ salt) :
    comparePasswords kdf password (hexEncodeBytes buf ++ '.' :: salt) = .ok true := by
  rw [comparePasswords_split kdf password _ salt (not_dot_mem_hexEncodeBytes buf) hsalt,
    hkdf]
  show timingSafeEqual (hexDecodeChars (hexEncodeBytes buf)) buf = .ok true
  rw [hexDecodeChars_hexEncodeBytes buf hbytes]
  exact (timingSafeEqual_eq_ok_true buf buf).mpr rfl

theorem comparePasswords_wrong_key (kdf : Kdf) (supplied : String)
    (salt : List Char) (storedKey suppliedKey : List Nat)
    (hkdf : kdf supplied salt = .ok suppliedKey)
    (hbytes : ∀ b ∈ storedKey, b < 256) (hsalt : '.' ∉ salt)
    (hne : suppliedKey ≠ storedKey) :
    comparePasswords kdf supplied (hexEncodeBytes storedKey ++ '.' :: salt) ≠ .ok true := by
  rw [comparePasswords_split kdf supplied _ salt (not_dot_mem_hexEncodeBytes storedKey) hsalt,
    hkdf]
  show timingSafeEqual (hexDecodeChars (hexEncodeBytes storedKey)) suppliedKey ≠ .ok true
  rw [hexDecodeChars_hexEncodeBytes storedKey hbytes]
  intro hcontra
  exact hne ((timingSafeEqual_eq_ok_true _ _).mp hcontra).symm

/-! ## Claim C3: `verifyToken` totality and rejection cases -/

/-- C3: for every input string `verifyToken` never raises — it returns
either a decoded `{userId, username}` payload or the invalid result `none`;
in particular a token whose expiry has passed, a token signed with a secret
different from the process-wide secret, and a malformed string all yield
`none`. -/
theorem verifyToken_never_raises_and_rejects (now : Nat) :
    (∀ tok : JwtString, verifyToken tok now = none ∨
      ∃ p, verifyToken tok now = some p) ∧
    (∀ p iat e sec, e ≤ now → verifyToken (.signed p iat e sec) now = none) ∧
    (∀ p iat e sec, sec ≠ jwtSecretDefault →
      verifyToken (.signed p iat e sec) now = none) ∧
    (∀ g, verifyToken (.garbage g) now = none) := by
  refine ⟨?_, ?_, ?_, ?_⟩
  · intro tok
    unfold verifyToken
    cases jwtVerify tok jwtSecretDefault now with
    | ok p => exact Or.inr ⟨p, rfl⟩
    | error e => exact Or.inl rfl
  · intro p iat e sec hexp
    by_cases hsec : sec = jwtSecretDefault
    · simp [verifyToken, jwtVerify, hsec, hexp]
    · simp [verifyToken, jwtVerify, hsec]
  · intro p iat e sec hsec
    simp [verifyToken, jwtVerify, hsec]
  · intro g
    rfl

/-- Witness for C3 at concrete inputs: an expired token and a token signed
with a different secret are both rejected at clock time 100. -/
theorem verifyToken_never_raises_and_rejects_witness :
    (50 : Nat) ≤ 100 ∧
    verifyToken (.signed ⟨1, "admin"⟩ 0 50 jwtSecretDefault) 100 = none ∧
    "other-secret" ≠ jwtSecretDefault ∧
    verifyToken (.signed ⟨1, "admin"⟩ 100 604900 "other-secret") 100 = none :=
  ⟨by decide,
   (verifyToken_never_raises_and_rejects 100).2.1 ⟨1, "admin"⟩ 0 50 _ (by decide),
   by decide,
   (verifyToken_never_raises_and_rejects 100).2.2.1 ⟨1, "admin"⟩ 100 604900 _ (by decide)⟩

/-! ## Claim C2: the auth middleware pipeline -/

/-- C2: per request, the middleware is a short-circuiting pipeline — no
bearer token gives 401 (the handler is not reached); a token `verifyToken`
rejects gives 403; a verified token whose embedded userId has no user in
storage gives 403; a throwing user lookup gives 500; otherwise the resolved
user is attached and the handler runs. -/
theorem authenticateToken_pipeline (s : MemStorage) (h : Option (List JwtString))
    (now : Nat) :
    (extractBearerToken h = none →
      authenticateToken s h now = .respond 401 "Access token required") ∧
    (∀ tok, extractBearerToken h = some tok → verifyToken tok now = none →
      authenticateToken s h now = .respond 403 "Invalid or expired token") ∧
    (∀ tok d m, extractBearerToken h = some tok → verifyToken tok now = some d →
      s.getUser d.userId = .error m →
      authenticateToken s h now = .respond 500 "Authentication error") ∧
    (∀ tok d, extractBearerToken h = some tok → verifyToken tok now = some d →
      s.getUser d.userId = .ok none →
      authenticateToken s h now = .respond 403 "User not found") ∧
    (∀ tok d u, extractBearerToken h = some tok → verifyToken tok now = some d →
      s.getUser d.userId = .ok (some u) →
      authenticateToken s h now = .next u) := by
  refine ⟨?_, ?_, ?_, ?_, ?_⟩
  · intro h1
    simp [authenticateToken, h1]
  · intro tok h1 h2
    simp [authenticateToken, h1, h2]
  · intro tok d m h1 h2 h3
    simp [authenticateToken, h1, h2, h3]
  · intro tok d h1 h2 h3
    simp [authenticateToken, h1, h2, h3]
  · intro tok d u h1 h2 h3
    simp [authenticateToken, h1, h2, h3]

/-- Witness for C2 at concrete inputs: a request without an Authorization
header is answered 401, and a request bearing a valid token for the stored
admin user reaches the handler with that user attached. -/
theorem authenticateToken_pipeline_witness :
    extractBearerToken none = none ∧
    authenticateToken adminStore none 0 = .respond 401 "Access token required" ∧
    authenticateToken adminStore
      (some [.garbage "Bearer", generateToken adminUser 0]) 5 = .next adminUser :=
  ⟨rfl,
   (authenticateToken_pipeline adminStore none 0).1 rfl,
   (authenticateToken_pipeline adminStore
      (some [.garbage "Bearer", generateToken adminUser 0]) 5).2.2.2.2
     (generateToken adminUser 0) ⟨1, "admin"⟩ adminUser rfl rfl rfl⟩

/-! ## Claim C6: `comparePasswords` on a malformed stored credential -/

/-- C6 counterexample: for a stored credential with no `'.'` separator,
`comparePasswords` does not return `false` — it rejects with the
salt-undefined fault (`scrypt` throws on the `undefined` salt), so the
claim "returns false rather than raising" fails at this input. -/
theorem comparePasswords_malformed_counterexample :
    comparePasswords kdfConst "pw" (String.toList "nodotstring") =
      .error .saltUndefined ∧
    (Except.error .saltUndefined : Except CryptoError Bool) ≠ .ok false :=
  ⟨rfl, fun hcontra => Except.noConfusion hcontra⟩

/-- C6 (amended): on a stored credential with no separator,
`comparePasswords` rejects with the salt-undefined fault instead of
returning a boolean; the fault is caught by `loginUser`, which returns
`null`, so verification fails without an unhandled fault escaping the
operation. -/
theorem comparePasswords_malformed_rejects (kdf : Kdf) (supplied : String)
    (stored : List Char) (hnd : '.' ∉ stored) :
    comparePasswords kdf supplied stored = .error .saltUndefined ∧
    (∀ s user uname now, s.getUserByUsername uname = .ok (some user) →
      user.password = stored →
      loginUser kdf s uname supplied now = none) := by
  refine ⟨comparePasswords_no_separator kdf supplied stored hnd, ?_⟩
  intro s user uname now h1 h2
  simp [loginUser, h1, h2, comparePasswords_no_separator kdf supplied stored hnd]

/-- Witness for the amended C6 at concrete inputs: the separator-free
credential `"nodotstring"` makes `comparePasswords` reject, and a login
against a user stored with that credential returns `null`. -/
theorem comparePasswords_malformed_rejects_witness :
    '.' ∉ String.toList "nodotstring" ∧
    comparePasswords kdfByLen "pw" (String.toList "nodotstring") =
      .error .saltUndefined ∧
    loginUser kdfByLen malformedStore "admin" "pw" 0 = none :=
  ⟨by decide,
   (comparePasswords_malformed_rejects kdfByLen "pw" _ (by decide)).1,
   (comparePasswords_malformed_rejects kdfByLen "pw" _ (by decide)).2
     malformedStore malformedUser "admin" 0 rfl rfl⟩

/-! ## Claim C4: `loginUser` checks the password -/

/-- C4: for every stored user, `loginUser` with the user's username and a
password whose derived key differs from the stored key returns `null`, and
likewise returns `null` when the username does not exist; with the correct
username and password it returns a token whose embedded username equals the
user's username. -/
theorem loginUser_password_check (kdf : Kdf) (s : MemStorage) (now : Nat) :
    (∀ uname user storedKey salt suppliedKey supplied,
      s.getUserByUsername uname = .ok (some user) →
      user.password = hexEncodeBytes storedKey ++ '.' :: salt →
      (∀ b ∈ storedKey, b < 256) → '.' ∉ salt →
      kdf supplied salt = .ok suppliedKey →
      suppliedKey ≠ storedKey →
      loginUser kdf s uname supplied now = none) ∧
    (∀ uname supplied, s.getUserByUsername uname = .ok none →
      loginUser kdf s uname supplied now = none) ∧
    (∀ uname user buf salt pw,
      s.getUserByUsername uname = .ok (some user) →
      user.password = hexEncodeBytes buf ++ '.' :: salt →
      (∀ b ∈ buf, b < 256) → '.' ∉ salt →
      kdf pw salt = .ok buf →
      loginUser kdf s uname pw now = some (user, generateToken user now) ∧
      (generateToken user now).embeddedUsername = some user.username) := by
  refine ⟨?_, ?_, ?_⟩
  · intro uname user storedKey salt suppliedKey supplied h1 h2 hb hs hk hne
    have hcmp := comparePasswords_wrong_key kdf supplied salt storedKey suppliedKey hk hb hs hne
    rw [← h2] at hcmp
    unfold loginUser
    rw [h1]
    cases hres : comparePasswords kdf supplied user.password with
    | error e => simp [hres]
    | ok b =>
      cases b with
      | false => simp [hres]
      | true => exact absurd hres hcmp
  · intro uname supplied h1
    simp [loginUser, h1]
  · intro uname user buf salt pw h1 h2 hb hs hk
    have hcmp := comparePasswords_roundtrip kdf pw salt buf hk hb hs
    rw [← h2] at hcmp
    constructor
    · simp [loginUser, h1, hcmp]
    · rfl

/-- Witness for C4 at concrete inputs: the stored admin user's key derives
from the two-letter password; a three-letter password derives a different
key and is rejected, an unknown username is rejected, and the correct
password logs in with a token embedding `"admin"`. -/
theorem loginUser_password_check_witness :
    kdfByLen "pwX" ['a', 'b'] = .ok [3] ∧ ([3] : List Nat) ≠ [2] ∧
    loginUser kdfByLen adminStore "admin" "pwX" 0 = none ∧
    loginUser kdfByLen adminStore "ghost" "pw" 0 = none ∧
    loginUser kdfByLen adminStore "admin" "pw" 7 =
      some (adminUser, generateToken adminUser 7) ∧
    (generateToken adminUser 7).embeddedUsername = some adminUser.username :=
  ⟨rfl, by decide,
   (loginUser_password_check kdfByLen adminStore 0).1 "admin" adminUser [2] ['a', 'b']
     [3] "pwX" rfl rfl (by decide) (by decide) rfl (by decide),
   (loginUser_password_check kdfByLen adminStore 0).2.1 "ghost" "pw" rfl,
   ((loginUser_password_check kdfByLen adminStore 7).2.2 "admin" adminUser [2] ['a', 'b']
     "pw" rfl rfl (by decide) (by decide) rfl).1,
   ((loginUser_password_check kdfByLen adminStore 7).2.2 "admin" adminUser [2] ['a', 'b']
     "pw" rfl rfl (by decide) (by decide) rfl).2⟩

/-! ## Claim C1: register-then-login round trip -/

/-- C1: for every non-empty username/password pair whose username is absent
from storage, `registerUser` returns a `{user, token}` result, and a
subsequent `loginUser` with the same credentials against the resulting
storage state returns a `{user, token}` result whose token `verifyToken`
accepts, decoding the registered user's id and username. -/
theorem register_then_login_roundtrip (kdf : Kdf) (s : MemStorage)
    (uname pw : String) (salt : List Char) (buf : List Nat) (now now2 : Nat)
    (hu : uname ≠ "") (hp : pw ≠ "")
    (hff1 : s.failGetUserByUsername = none) (hff2 : s.failCreateUser = none)
    (habsent : s.users.find? (fun u => u.username == uname) = none)
    (hkdf : kdf pw salt = .ok buf) (hbytes : ∀ b ∈ buf, b < 256)
    (hsalt : '.' ∉ salt) :
    ∃ user s2,
      registerUser kdf s uname pw salt now = some (user, generateToken user now, s2) ∧
      user.username = uname ∧
      loginUser kdf s2 uname pw now2 = some (user, generateToken user now2) ∧
      verifyToken (generateToken user now2) now2 = some ⟨user.id, uname⟩ := by
  refine ⟨⟨s.nextUserId, uname, hexEncodeBytes buf ++ '.' :: salt⟩,
    { s with
      users := s.users ++ [⟨s.nextUserId, uname, hexEncodeBytes buf ++ '.' :: salt⟩],
      nextUserId := s.nextUserId + 1 }, ?_, rfl, ?_, ?_⟩
  · simp [registerUser, MemStorage.getUserByUsername, MemStorage.createUser,
      hashPassword, hff1, habsent, hkdf, hff2]
  · have hfind : (s.users ++
        [(⟨s.nextUserId, uname, hexEncodeBytes buf ++ '.' :: salt⟩ : User)]).find?
        (fun u => u.username == uname) =
        some ⟨s.nextUserId, uname, hexEncodeBytes buf ++ '.' :: salt⟩ := by
      rw [List.find?_append, habsent]
      simp
    have hcmp := comparePasswords_roundtrip kdf pw salt buf hkdf hbytes hsalt
    simp [loginUser, MemStorage.getUserByUsername, hff1, hfind, hcmp]
  · have hexp : ¬ (now2 + jwtExpiresInSeconds ≤ now2) := by
      unfold jwtExpiresInSeconds
      omega
    simp [verifyToken, jwtVerify, generateToken, jwtSign, hexp]

/-- Witness for C1 at concrete inputs: registering `"admin"`/`"pw"` in the
empty store and logging back in succeeds, and the login token verifies to
the registered identity. -/
theorem register_then_login_roundtrip_witness :
    ("admin" : String) ≠ "" ∧ ("pw" : String) ≠ "" ∧
    emptyStore.users.find? (fun u => u.username == "admin") = none ∧
    (∃ user s2,
      registerUser kdfConst emptyStore "admin" "pw" ['a', 'b'] 0 =
        some (user, generateToken user 0, s2) ∧
      user.username = "admin" ∧
      loginUser kdfConst s2 "admin" "pw" 10 = some (user, generateToken user 10) ∧
      verifyToken (generateToken user 10) 10 = some ⟨user.id, "admin"⟩) :=
  ⟨by decide, by decide, rfl,
   register_then_login_roundtrip kdfConst emptyStore "admin" "pw" ['a', 'b'] [0, 1] 0 10
     (by decide) (by decide) rfl rfl rfl rfl (by decide) (by decide)⟩

/-! ## Claim C5: storage/hashing faults versus business failures -/

/-- C5 counterexample: a login execution in which the storage collaborator
throws produces exactly the same result (`none`) as a mere
invalid-credentials rejection, and a register execution in which storage
throws produces exactly the same result as a duplicate-username rejection —
so the fault is not distinguishable by the caller, contradicting the claim
that the results differ. -/
theorem fault_vs_business_counterexample :
    loginUser kdfConst faultLoginStore "admin" "pw" 0 = none ∧
    loginUser kdfConst emptyStore "admin" "pw" 0 = none ∧
    registerUser kdfConst faultLoginStore "admin" "pw" ['a', 'b'] 0 = none ∧
    registerUser kdfConst adminStore "admin" "pw" ['a', 'b'] 0 = none ∧
    loginUser kdfConst faultLoginStore "admin" "pw" 0 =
      loginUser kdfConst emptyStore "admin" "pw" 0 ∧
    registerUser kdfConst faultLoginStore "admin" "pw" ['a', 'b'] 0 =
      registerUser kdfConst adminStore "admin" "pw" ['a', 'b'] 0 :=
  ⟨rfl, rfl, rfl, rfl, rfl, rfl⟩

/-- C5 (amended): both operations catch storage and hashing faults, but
they surface them as the very same `null` the business failures produce —
an invalid-credentials login and a faulted login both give `none`, and a
duplicate-username register and a faulted register both give `none` — so
the caller cannot distinguish an infrastructure error from an expected
rejection; the routes accordingly answer 401 "Invalid credentials" and 400
"Username already exists" for faults too. -/
theorem fault_surfaces_as_business_null (kdf : Kdf) (s : MemStorage)
    (uname pw : String) (salt : List Char) (now : Nat) :
    (∀ m, s.failGetUserByUsername = some m →
      loginUser kdf s uname pw now = none ∧
      registerUser kdf s uname pw salt now = none) ∧
    (∀ m, s.failGetUserByUsername = none →
      s.users.find? (fun u => u.username == uname) = none →
      s.failCreateUser = some m →
      registerUser kdf s uname pw salt now = none) ∧
    (∀ e, s.failGetUserByUsername = none →
      s.users.find? (fun u => u.username == uname) = none →
      kdf pw salt = .error e →
      registerUser kdf s uname pw salt now = none) ∧
    (∀ m, s.failGetUserByUsername = some m → uname ≠ "" → pw ≠ "" →
      loginRoute kdf s (some uname) (some pw) now =
        { status := 401, message := some "Invalid credentials" } ∧
      registerRoute kdf s (some uname) (some pw) salt now =
        { status := 400, message := some "Username already exists" }) := by
  refine ⟨?_, ?_, ?_, ?_⟩
  · intro m hm
    constructor
    · simp [loginUser, MemStorage.getUserByUsername, hm]
    · simp [registerUser, MemStorage.getUserByUsername, hm]
  · intro m hm habsent hc
    simp [registerUser, MemStorage.getUserByUsername, MemStorage.createUser,
      hashPassword, hm, habsent, hc]
    cases hk : kdf pw salt <;> simp
  · intro e hm habsent hk
    simp [registerUser, MemStorage.getUserByUsername, hashPassword, hm, habsent, hk]
  · intro m hm hu hp
    have hlo : loginUser kdf s uname pw now = none := by
      simp [loginUser, MemStorage.getUserByUsername, hm]
    have hre : registerUser kdf s uname pw salt now = none := by
      simp [registerUser, MemStorage.getUserByUsername, hm]
    constructor
    · simp [loginRoute, jsFalsyStr, hu, hp, hlo]
    · simp [registerRoute, jsFalsyStr, hu, hp, hre]

/-- Witness for the amended C5 at concrete inputs: with a throwing
user-by-username lookup, login and register return `null` and the routes
answer with the business-failure responses. -/
theorem fault_surfaces_as_business_null_witness :
    faultLoginStore.failGetUserByUsername = some "db down" ∧
    loginUser kdfConst faultLoginStore "alice" "pw" 0 = none ∧
    registerUser kdfConst faultLoginStore "alice" "pw" ['a', 'b'] 0 = none ∧
    loginRoute kdfConst faultLoginStore (some "alice") (some "pw") 0 =
      { status := 401, message := some "Invalid credentials" } ∧
    registerRoute kdfConst faultLoginStore (some "alice") (some "pw") ['a', 'b'] 0 =
      { status := 400, message := some "Username already exists" } :=
  ⟨rfl,
   ((fault_surfaces_as_business_null kdfConst faultLoginStore "alice" "pw" ['a', 'b'] 0).1
     "db down" rfl).1,
   ((fault_surfaces_as_business_null kdfConst faultLoginStore "alice" "pw" ['a', 'b'] 0).1
     "db down" rfl).2,
   ((fault_surfaces_as_business_null kdfConst faultLoginStore "alice" "pw" ['a', 'b'] 0).2.2.2
     "db down" rfl (by decide) (by decide)).1,
   ((fault_surfaces_as_business_null kdfConst faultLoginStore "alice" "pw" ['a', 'b'] 0).2.2.2
     "db down" rfl (by decide) (by decide)).2⟩

/-! ## Claim C7: id parsing on the leadership-value item routes -/

/-- C7 counterexample: the id parameter `"12abc"` is not numeric, yet the
GET handler does not answer 400 — `parseInt` reads the leading digits as 12
and the handler serves the record stored under id 12 with status 200. -/
theorem lv_id_nonnumeric_counterexample :
    jsParseInt "12abc" = some 12 ∧
    getLvByIdRoute lvStore "12abc" =
      { status := 200, lvData := some ⟨12, "Integrity", "Being honest"⟩ } ∧
    (200 : Nat) ≠ 400 :=
  ⟨rfl, rfl, by decide⟩

/-- C7 (amended): the id parameter is parsed with JavaScript `parseInt`
semantics: an id with no parseable integer prefix yields 400 on GET, PUT
and DELETE; an id that parses — including one with trailing garbage, which
is treated as its numeric prefix — proceeds, and when no LeadershipValue is
stored under the parsed id the answer is 404, not 500. -/
theorem lv_id_routes_status (s : MemStorage) (idParam : String) :
    (jsParseInt idParam = none →
      getLvByIdRoute s idParam = { status := 400, message := some "Invalid ID format" } ∧
      deleteLvRoute s idParam = { status := 400, message := some "Invalid ID format" } ∧
      ∀ body, updateLvRoute s idParam body =
        { status := 400, message := some "Invalid ID format" }) ∧
    (∀ id, jsParseInt idParam = some id →
      s.failGetLeadershipValueById = none →
      s.leadershipValues.find? (fun v => v.id == id) = none →
      getLvByIdRoute s idParam =
        { status := 404, message := some "Leadership value not found" } ∧
      deleteLvRoute s idParam =
        { status := 404, message := some "Leadership value not found" } ∧
      ∀ body, updateLvRoute s idParam body =
        { status := 404, message := some "Leadership value not found" }) := by
  constructor
  · intro hnan
    refine ⟨?_, ?_, fun body => ?_⟩ <;>
      simp [getLvByIdRoute, deleteLvRoute, updateLvRoute, hnan]
  · intro id hid hff habsent
    refine ⟨?_, ?_, fun body => ?_⟩ <;>
      simp [getLvByIdRoute, deleteLvRoute, updateLvRoute,
        MemStorage.getLeadershipValueById, hid, hff, habsent]

/-- Witness for the amended C7 at concrete inputs: the id `"abc"` has no
integer prefix and yields 400 on all three routes; the id `"7"` parses but
is not stored, and yields 404 on all three routes. -/
theorem lv_id_routes_status_witness :
    jsParseInt "abc" = none ∧
    getLvByIdRoute lvStore "abc" = { status := 400, message := some "Invalid ID format" } ∧
    deleteLvRoute lvStore "abc" = { status := 400, message := some "Invalid ID format" } ∧
    jsParseInt "7" = some 7 ∧
    getLvByIdRoute lvStore "7" =
      { status := 404, message := some "Leadership value not found" } ∧
    deleteLvRoute lvStore "7" =
      { status := 404, message := some "Leadership value not found" } ∧
    updateLvRoute lvStore "7" (.ok ("Integrity", "Being honest")) =
      { status := 404, message := some "Leadership value not found" } :=
  ⟨rfl,
   ((lv_id_routes_status lvStore "abc").1 rfl).1,
   ((lv_id_routes_status lvStore "abc").1 rfl).2.1,
   rfl,
   ((lv_id_routes_status lvStore "7").2 7 rfl rfl rfl).1,
   ((lv_id_routes_status lvStore "7").2 7 rfl rfl rfl).2.1,
   ((lv_id_routes_status lvStore "7").2 7 rfl rfl rfl).2.2
     (.ok ("Integrity", "Being honest"))⟩

/-! ## Claim C9: internal error details in client-visible responses -/

/-- C9 counterexample: when the health check's storage probe throws with
message `"connection refused"`, the 503 response body carries that internal
message in its `error` field; and when the email provider fails with detail
`"smtp 535"`, the PDF-email 500 response carries it in `details` — internal
error details do reach the client, contradicting the claim. -/
theorem error_detail_leak_counterexample :
    healthRoute healthFaultStore =
      { status := 503, statusWord := "unhealthy", database := "disconnected",
        errorDetail := some "connection refused" } ∧
    sendPdfEmailRoute pdfReqOk { success := false, errorDetail := some "smtp 535" } =
      { status := 500, errorWord := some "Failed to send email",
        details := some "smtp 535" } :=
  ⟨rfl, rfl⟩

/-- C9 (amended): most handlers do convert infrastructure failures into a
generic message — a throwing submissions fetch makes the CSV export answer
a generic 500, and a `pdfBase64` with no comma makes `Buffer.from` throw
inside the PDF-email handler, whose catch answers a generic 500 without
`details` and without reaching the provider — but two responses include
internal detail: the health endpoint's 503 body carries the storage error's
message in `error`, and when a comma-bearing `pdfBase64` lets the request
reach a failing provider, the 500 body carries the provider's error value
in `details`. -/
theorem error_detail_exposure (s : MemStorage) (m : String)
    (req : PdfEmailReq) (er : EmailResult) (fmt : String → String) :
    (s.failGetAllLeadershipValues = some m →
      healthRoute s =
        { status := 503, statusWord := "unhealthy",
          database := "disconnected", errorDetail := some m }) ∧
    (∀ p info e n cv, req.pdfBase64 = some p → p ≠ "" →
      req.userInfo = some info → info.email = some e → e ≠ "" →
      info.name = some n → n ≠ "" → req.coreValues = some cv →
      ',' ∈ p.toList →
      er.success = false →
      sendPdfEmailRoute req er =
        { status := 500, errorWord := some "Failed to send email",
          details := er.errorDetail }) ∧
    (∀ p info e n cv, req.pdfBase64 = some p → p ≠ "" →
      req.userInfo = some info → info.email = some e → e ≠ "" →
      info.name = some n → n ≠ "" → req.coreValues = some cv →
      ',' ∉ p.toList →
      sendPdfEmailRoute req er =
        { status := 500, errorWord := some "Failed to send email" }) ∧
    (s.failGetAllSubmissions = some m →
      exportRoute s none fmt =
        { status := 500, message := some "An error occurred while exporting submissions" }) := by
  refine ⟨?_, ?_, ?_, ?_⟩
  · intro hm
    simp [healthRoute, MemStorage.getAllLeadershipValues, hm]
  · intro p info e n cv hp hpne hinfo he hene hn hnne hcv hcomma hfail
    obtain ⟨b64, hb64⟩ := jsSplitChar_get_one_of_mem ',' p.toList hcomma
    have hb : (jsSplitChar ',' p.data)[1]? = some b64 := by
      rw [← List.get?_eq_getElem?]
      exact hb64
    simp [sendPdfEmailRoute, jsFalsyStr, hp, hpne, hinfo, he, hene, hn, hnne, hcv,
      hb, hfail]
  · intro p info e n cv hp hpne hinfo he hene hn hnne hcv hcomma
    have hsplit0 : (jsSplitChar ',' p.toList).get? 1 = none := by
      rw [jsSplitChar_of_not_mem ',' p.toList hcomma]
      rfl
    have hsplit : (jsSplitChar ',' p.data)[1]? = none := by
      rw [← List.get?_eq_getElem?]
      exact hsplit0
    simp [sendPdfEmailRoute, jsFalsyStr, hp, hpne, hinfo, he, hene, hn, hnne, hcv,
      hsplit]
  · intro hm
    simp [exportRoute, jsFalsyStr, MemStorage.getAllSubmissions, hm]

/-- Witness for the amended C9 at concrete inputs. -/
theorem error_detail_exposure_witness :
    healthFaultStore.failGetAllLeadershipValues = some "connection refused" ∧
    healthRoute healthFaultStore =
      { status := 503, statusWord := "unhealthy", database := "disconnected",
        errorDetail := some "connection refused" } ∧
    ',' ∈ String.toList "data:application/pdf;base64,AAAA" ∧
    sendPdfEmailRoute pdfReqOk { success := false, errorDetail := some "smtp 535" } =
      { status := 500, errorWord := some "Failed to send email",
        details := some "smtp 535" } ∧
    ',' ∉ String.toList "AAAA" ∧
    sendPdfEmailRoute { pdfReqOk with pdfBase64 := some "AAAA" }
      { success := false, errorDetail := some "smtp 535" } =
      { status := 500, errorWord := some "Failed to send email" } :=
  ⟨rfl,
   (error_detail_exposure healthFaultStore "connection refused" pdfReqOk
     { success := false, errorDetail := some "smtp 535" } id).1 rfl,
   by decide,
   (error_detail_exposure healthFaultStore "connection refused" pdfReqOk
     { success := false, errorDetail := some "smtp 535" } id).2.1
     "data:application/pdf;base64,AAAA"
     { name := some "Alice Smith", email := some "alice@example.com" }
     "alice@example.com" "Alice Smith" [("Integrity", "Being honest")]
     rfl (by decide) rfl rfl (by decide) rfl (by decide) rfl (by decide) rfl,
   by decide,
   (error_detail_exposure healthFaultStore "connection refused"
     { pdfReqOk with pdfBase64 := some "AAAA" }
     { success := false, errorDetail := some "smtp 535" } id).2.2.1
     "AAAA"
     { name := some "Alice Smith", email := some "alice@example.com" }
     "alice@example.com" "Alice Smith" [("Integrity", "Being honest")]
     rfl (by decide) rfl rfl (by decide) rfl (by decide) rfl (by decide)⟩

/-! ## Claim C10: export with `companyCode=all` -/

/-- C10: a request to the CSV export with `companyCode` equal to the
literal string `'all'` exports all submissions unfiltered — the body is
identical to the body produced with the parameter omitted — yet the
attachment filename is `submissions_all.csv` rather than
`submissions.csv`. -/
theorem export_all_literal (s : MemStorage) (fmt : String → String)
    (hff : s.failGetAllSubmissions = none) :
    (exportRoute s (some "all") fmt).body = (exportRoute s none fmt).body ∧
    (exportRoute s (some "all") fmt).status = 200 ∧
    (exportRoute s (some "all") fmt).contentDisposition =
      some "attachment; filename=\"submissions_all.csv\"" ∧
    (exportRoute s none fmt).contentDisposition =
      some "attachment; filename=\"submissions.csv\"" := by
  refine ⟨?_, ?_, ?_, ?_⟩ <;>
    simp [exportRoute, jsFalsyStr, MemStorage.getAllSubmissions, hff]

/-- Witness for C10 at concrete inputs: with one `"X"`-coded and one
uncoded submission stored, `companyCode=all` and no parameter give the same
body but differently named attachments. -/
theorem export_all_literal_witness :
    subStore.failGetAllSubmissions = none ∧
    (exportRoute subStore (some "all") id).body = (exportRoute subStore none id).body ∧
    (exportRoute subStore (some "all") id).status = 200 ∧
    (exportRoute subStore (some "all") id).contentDisposition =
      some "attachment; filename=\"submissions_all.csv\"" ∧
    (exportRoute subStore none id).contentDisposition =
      some "attachment; filename=\"submissions.csv\"" :=
  ⟨rfl,
   (export_all_literal subStore id rfl).1,
   (export_all_literal subStore id rfl).2.1,
   (export_all_literal subStore id rfl).2.2.1,
   (export_all_literal subStore id rfl).2.2.2⟩

/-! ## Claim C8: the CSV export -/

/-- C8 counterexample: the `companyCode` query parameter is present with
value `"all"`, yet the export is not restricted to submissions carrying
that company code — both stored submissions, whose codes are `"X"` and
absent, appear in the body — so "when a companyCode query parameter is
present only submissions with that company code are exported" fails. -/
theorem export_filter_counterexample :
    (exportRoute subStore (some "all") id).body =
      some (csvHeader ++ String.intercalate "\n" [csvRow id subX, csvRow id subNoCode]) ∧
    subX.companyCode ≠ some "all" ∧
    subNoCode.companyCode ≠ some "all" ∧
    (exportRoute subStore (some "all") id).contentDisposition =
      some "attachment; filename=\"submissions_all.csv\"" :=
  ⟨rfl, by decide, by decide, rfl⟩

/-- C8 (amended): the export answers 200 with `Content-Type: text/csv` and
a `Content-Disposition` attachment header; the body is the header line
`Name,Email,Company Code,Core Values,Date Submitted` followed by one row
per exported submission, every field wrapped in double quotes and the core
values joined with `", "`.  When `companyCode` is present, non-empty and
not `'all'`, only submissions with exactly that company code are exported
and the filename is `submissions_<code>.csv`; when the parameter is
omitted, empty, or equal to `'all'`, all submissions are exported; the
filename suffix `_<code>` is applied whenever the parameter is present and
non-empty — including for `'all'`, which yields `submissions_all.csv`. -/
theorem export_csv_shape (s : MemStorage) (fmt : String → String)
    (hall : s.failGetAllSubmissions = none)
    (hfil : s.failGetSubmissionsByCompanyCode = none) :
    (exportRoute s none fmt =
      { status := 200, contentType := some "text/csv",
        contentDisposition := some "attachment; filename=\"submissions.csv\"",
        body := some (csvHeader ++
          String.intercalate "\n" (s.submissions.map (csvRow fmt))) }) ∧
    (∀ c, c ≠ "" → c ≠ "all" →
      exportRoute s (some c) fmt =
        { status := 200, contentType := some "text/csv",
          contentDisposition :=
            some ("attachment; filename=\"submissions_" ++ c ++ ".csv\""),
          body := some (csvHeader ++ String.intercalate "\n"
            ((s.submissions.filter
              (fun sub => sub.companyCode == some c)).map (csvRow fmt))) }) ∧
    (exportRoute s (some "all") fmt =
      { status := 200, contentType := some "text/csv",
        contentDisposition := some "attachment; filename=\"submissions_all.csv\"",
        body := some (csvHeader ++
          String.intercalate "\n" (s.submissions.map (csvRow fmt))) }) ∧
    (exportRoute s (some "") fmt =
      { status := 200, contentType := some "text/csv",
        contentDisposition := some "attachment; filename=\"submissions.csv\"",
        body := some (csvHeader ++
          String.intercalate "\n" (s.submissions.map (csvRow fmt))) }) ∧
    (∀ sub, csvRow fmt sub = String.intercalate ","
      ([sub.name, sub.email, sub.companyCode.getD "",
        String.intercalate ", " sub.coreValues, fmt sub.createdAt].map
        (fun f => "\"" ++ f ++ "\""))) := by
  refine ⟨?_, ?_, ?_, ?_, ?_⟩
  · simp [exportRoute, jsFalsyStr, MemStorage.getAllSubmissions, hall]
  · intro c hc1 hc2
    have hb1 : (c == "") = false := beq_eq_false_iff_ne.mpr hc1
    have hb2 : (c == "all") = false := beq_eq_false_iff_ne.mpr hc2
    simp [exportRoute, jsFalsyStr, MemStorage.getSubmissionsByCompanyCode,
      hfil, hb1, hb2, hc2]
    rw [← String.append_assoc]
    rfl
  · simp [exportRoute, jsFalsyStr, MemStorage.getAllSubmissions, hall]
  · simp [exportRoute, jsFalsyStr, MemStorage.getAllSubmissions, hall]
  · intro sub
    rfl

/-- Witness for the amended C8 at concrete inputs: filtering by `"X"`
exports exactly the `"X"`-coded submission under the filename
`submissions_X.csv`, and the row text carries the quoted fields with the
core values joined by `", "`. -/
theorem export_csv_shape_witness :
    ("X" : String) ≠ "" ∧ ("X" : String) ≠ "all" ∧
    exportRoute subStore (some "X") id =
      { status := 200, contentType := some "text/csv",
        contentDisposition := some "attachment; filename=\"submissions_X.csv\"",
        body := some (csvHeader ++ String.intercalate "\n" [csvRow id subX]) } ∧
    csvRow id subX =
      "\"Alice\",\"alice@example.com\",\"X\",\"Integrity, Courage\",\"2024-01-01\"" := by
  refine ⟨by decide, by decide, ?_, ?_⟩
  · have h := (export_csv_shape subStore id rfl rfl).2.1 "X" (by decide) (by decide)
    simpa using h
  · have h := (export_csv_shape subStore id rfl rfl).2.2.2.2 subX
    rw [h]
    rfl
